import Mathlib

/-!
# The Slack socket-mode greeting bot (`main.go`)

A shallow embedding of `main.go`: the environment check at startup, the
`switch event.Type` of the dispatch goroutine, and the `for`/`select` loop
around it.

Conventions of the embedding.

* Calls that leave the process (`client.Ack`, `client.PostMessage`, `log.Println`,
  `log.Printf`) are recorded, in program order, as a list of `Action`s.
* A Go pointer that the code dereferences is an `Option`; `none` is the nil
  pointer and dereferencing it ends the goroutine (and with it the process) with
  a run-time panic, recorded as `Flow.panicked`.
* A Go `interface{}` value is an inductive type with one constructor for every
  dynamic type the code tests for and one constructor for all the others.
* The error returned by `client.PostMessage` is not computed by the program; it
  is an input of the model (`none` is the nil error).
* The `select` over `ctx.Done()` and `client.Events` is modelled by the list of
  events received before cancellation; the goroutine that turns `SIGINT` and
  `SIGTERM` into that cancellation is not part of the model.
-/

namespace SlackBot

/-! ## Declarations of the Slack client library used by `main.go` -/

/-- The string type `socketmode.EventType`. -/
abbrev EventType := String

/-- The library constant `socketmode.EventTypeConnecting`. -/
@[simp]
def EventTypeConnecting : EventType := "connecting"
/-- The library constant `socketmode.EventTypeConnectionError`. -/
@[simp]
def EventTypeConnectionError : EventType := "connection_error"
/-- The library constant `socketmode.EventTypeConnected`. -/
@[simp]
def EventTypeConnected : EventType := "connected"
/-- The library constant `socketmode.EventTypeEventsAPI`. -/
@[simp]
def EventTypeEventsAPI : EventType := "events_api"
/-- The library constant `socketmode.EventTypeInteractive`. -/
@[simp]
def EventTypeInteractive : EventType := "interactive"
/-- The library constant `socketmode.EventTypeSlashCommand`. -/
@[simp]
def EventTypeSlashCommand : EventType := "slash_commands"

/-- The library constant `slackevents.CallbackEvent`. -/
def CallbackEvent : String := "event_callback"

/-- The struct `socketmode.Request`: the envelope that `client.Ack` answers. -/
structure Request where
  Type_ : String
  EnvelopeID : String
  deriving DecidableEq

/-- The struct `slackevents.AppMentionEvent` (the fields of the mention). -/
structure AppMentionEvent where
  Type_ : String
  User : String
  Text : String
  TimeStamp : String
  Channel : String
  deriving DecidableEq

/-- The dynamic value of `EventsAPIInnerEvent.Data` (an `interface{}`).
`AppMentionEvent p` is a value of dynamic type `*slackevents.AppMentionEvent`,
`p = none` being the nil pointer of that type; `Other t` is a value of any other
dynamic type `t` (the nil interface included). -/
inductive InnerEventData where
  | AppMentionEvent (ev : Option AppMentionEvent)
  | Other (dynamicType : String)
  deriving DecidableEq

/-- The struct `slackevents.EventsAPIInnerEvent`. -/
structure EventsAPIInnerEvent where
  Type_ : String
  Data : InnerEventData
  deriving DecidableEq

/-- The struct `slackevents.EventsAPIEvent`. -/
structure EventsAPIEvent where
  Token : String
  TeamID : String
  Type_ : String
  InnerEvent : EventsAPIInnerEvent
  deriving DecidableEq

/-- The struct `slack.SlashCommand` (the fields of the command). -/
structure SlashCommand where
  TeamID : String
  ChannelID : String
  UserID : String
  Command : String
  Text : String
  deriving DecidableEq

/-- The dynamic value of `Event.Data` (an `interface{}`): a
`slackevents.EventsAPIEvent`, a `slack.SlashCommand`, or a value of any other
dynamic type (the nil interface included). -/
inductive EventData where
  | EventsAPIEvent (v : EventsAPIEvent)
  | SlashCommand (v : SlashCommand)
  | Other (dynamicType : String)
  deriving DecidableEq

/-- The struct `socketmode.Event`; `Request` is a pointer. -/
structure Event where
  Type_ : EventType
  Data : EventData
  Request : Option Request
  deriving DecidableEq

/-- A message option; the code only builds `slack.MsgOptionText(text, escape)`. -/
inductive MsgOption where
  | MsgOptionText (text : String) (escape : Bool)
  deriving DecidableEq

/-- The argument printed by a `log.Printf` call. -/
inductive LogArg where
  | event (e : Event)
  | err (e : String)
  | str (s : String)
  deriving DecidableEq

/-- The calls the dispatch goroutine makes, in program order. -/
inductive Action where
  | Println (line : String)
  | Printf (format : String) (arg : LogArg)
  | Ack (req : Request)
  | PostMessage (channelID : String) (options : List MsgOption)
  deriving DecidableEq

/-- How the body of the loop ends: at the next receive (by `continue` or by
reaching the end of the `select`), or by a nil-pointer panic. -/
inductive Flow where
  | next
  | panicked
  deriving DecidableEq

/-! ## The dispatch goroutine -/

/-- The `if err != nil` that follows both `client.PostMessage` calls. -/
def logPostError (err : Option String) : List Action :=
  match err with
  | some e => [Action.Printf "Failed to post message: %v" (LogArg.err e)]
  | none => []

/-- The body of `case event := <-client.Events:`; `err` is what
`client.PostMessage` returns if the body calls it. -/
def handleEvent (err : Option String) (event : Event) : List Action × Flow :=
  let logged := [Action.Printf "Event: %+v\n" (LogArg.event event)]
  if event.Type_ = EventTypeConnecting then
    (logged ++ [Action.Println "Connecting to Slack with Socket Mode..."], Flow.next)
  else if event.Type_ = EventTypeConnectionError then
    (logged ++ [Action.Println "Connection failed. Retrying later..."], Flow.next)
  else if event.Type_ = EventTypeConnected then
    (logged ++ [Action.Println "Connected to Slack with Socket Mode."], Flow.next)
  else if event.Type_ = EventTypeEventsAPI then
    match event.Data with
    | EventData.EventsAPIEvent eventsAPIEvent =>
      match event.Request with
      | none => (logged, Flow.panicked)
      | some req =>
        let acked := logged ++ [Action.Ack req]
        if eventsAPIEvent.Type_ = CallbackEvent then
          match eventsAPIEvent.InnerEvent.Data with
          | InnerEventData.AppMentionEvent (some ev) =>
            (acked ++ [Action.PostMessage ev.Channel
                [MsgOption.MsgOptionText ("Hello <@" ++ ev.User ++ ">!") false]]
              ++ logPostError err, Flow.next)
          | InnerEventData.AppMentionEvent none => (acked, Flow.panicked)
          | InnerEventData.Other _ => (acked, Flow.next)
        else
          (acked ++ [Action.Printf "Unsupported Events API event received: %v\n"
            (LogArg.str eventsAPIEvent.Type_)], Flow.next)
    | _ => (logged ++ [Action.Printf "Ignored %+v\n" (LogArg.event event)], Flow.next)
  else if event.Type_ = EventTypeInteractive then
    match event.Request with
    | none => (logged, Flow.panicked)
    | some req => (logged ++ [Action.Ack req], Flow.next)
  else if event.Type_ = EventTypeSlashCommand then
    match event.Data with
    | EventData.SlashCommand cmd =>
      match event.Request with
      | none => (logged, Flow.panicked)
      | some req =>
        let acked := logged ++ [Action.Ack req]
        if cmd.Command = "/hello" then
          (acked ++ [Action.PostMessage cmd.ChannelID
              [MsgOption.MsgOptionText ("Hello <@" ++ cmd.UserID ++ ">!") false]]
            ++ logPostError err, Flow.next)
        else
          (acked ++ [Action.Printf "Unknown command: %s" (LogArg.str cmd.Command)], Flow.next)
    | _ => (logged ++ [Action.Printf "Ignored %+v\n" (LogArg.event event)], Flow.next)
  else
    (logged ++ [Action.Printf "Ignored %+v\n" (LogArg.event event)], Flow.next)

/-- Recogniser of the `client.PostMessage` calls. -/
def isPostMessage : Action → Bool
  | Action.PostMessage _ _ => true
  | _ => false

/-- Recogniser of the `client.Ack` calls. -/
def isAck : Action → Bool
  | Action.Ack _ => true
  | _ => false

/-- Recogniser of the `log` calls. -/
def isLog : Action → Bool
  | Action.Println _ => true
  | Action.Printf _ _ => true
  | _ => false

/-- Recogniser of the line logged when `client.PostMessage` returns an error. -/
def isPostErrorLog : Action → Bool
  | Action.Printf format (LogArg.err _) => format == "Failed to post message: %v"
  | _ => false

/-- The `client.PostMessage` calls of a run, in order. -/
def postMessages (actions : List Action) : List Action := actions.filter isPostMessage

/-- The `client.Ack` calls of a run, in order. -/
def acks (actions : List Action) : List Action := actions.filter isAck

/-- The acknowledgments and reply attempts of a run, in order (the log lines are
dropped). -/
def calls (actions : List Action) : List Action := actions.filter (fun a => !isLog a)

/-- The events whose handling started in a run, read off the `"Event: %+v\n"`
line that opens the handling of every received event. -/
def received : List Action → List Event
  | [] => []
  | Action.Printf format (LogArg.event e) :: rest =>
    if format = "Event: %+v\n" then e :: received rest else received rest
  | _ :: rest => received rest

/-- The `for`/`select` loop of the goroutine on the events received before
cancellation. `postResult i` is the error returned by the `i`-th call of
`client.PostMessage` in the life of the process (`none` is the nil error), and
`k` is the number of such calls made so far. A panic ends the loop. -/
def dispatch (postResult : Nat → Option String) (k : Nat) : List Event → List Action × Flow
  | [] => ([], Flow.next)
  | event :: events =>
    match handleEvent (postResult k) event with
    | (actions, Flow.panicked) => (actions, Flow.panicked)
    | (actions, Flow.next) =>
      let later := dispatch postResult (k + (postMessages actions).length) events
      (actions ++ later.1, later.2)

/-- The events the socket-mode client delivers on `client.Events`. The handler
dereferences `event.Request` (in `client.Ack(*event.Request)`, for the types
`events_api`, `interactive` and `slash_commands`) and the mention pointer (in
`ev.Channel` and `ev.User`) without a nil check; the client library, which is
outside `main.go`, attaches the request envelope to every event of these three
types and parses a mention into a non-nil pointer. `inbound` says that these
pointers are set. -/
def inbound (event : Event) : Bool :=
  (if event.Type_ = EventTypeEventsAPI ∨ event.Type_ = EventTypeInteractive
      ∨ event.Type_ = EventTypeSlashCommand then event.Request.isSome else true)
  && (match event.Data with
      | EventData.EventsAPIEvent v =>
        (match v.InnerEvent.Data with
         | InnerEventData.AppMentionEvent none => false
         | _ => true)
      | _ => true)

/-! ## Startup -/

/-- The process environment; `none` is an unset variable. -/
abbrev Environ := String → Option String

/-- The function `os.Getenv`: the value of the variable, empty if it is unset. -/
def Getenv (env : Environ) (key : String) : String := (env key).getD ""

/-- The steps of `main`, in program order. -/
inductive Step where
  | Fatal (line : String)
  | slackNew (botToken : String) (appToken : String)
  | socketmodeNew
  | RunContext
  | handled (a : Action)
  | Fatalf (format : String) (err : String)
  deriving DecidableEq

/-- The function `main`: `events` are the events the connection delivers while
`RunContext` runs, `runResult` the error `RunContext` returns (`none` is nil).
`log.Fatal` and `log.Fatalf` exit the process, so nothing follows them. -/
def main (env : Environ) (postResult : Nat → Option String) (events : List Event)
    (runResult : Option String) : List Step :=
  let appToken := Getenv env "SLACK_APP_TOKEN"
  let botToken := Getenv env "SLACK_BOT_TOKEN"
  if appToken = "" ∨ botToken = "" then
    [Step.Fatal "SLACK_APP_TOKEN and SLACK_BOT_TOKEN must be set."]
  else
    let run := dispatch postResult 0 events
    [Step.slackNew botToken appToken, Step.socketmodeNew, Step.RunContext]
      ++ run.1.map Step.handled
      ++ (match run.2, runResult with
          | Flow.next, some err => [Step.Fatalf "Error running socketmode: %v" err]
          | _, _ => [])


/-! ## Concrete events used below -/

/-- A `/hello` slash command as the socket-mode client delivers it. -/
def helloCommand : Event :=
  { Type_ := EventTypeSlashCommand
    Data := EventData.SlashCommand
      { TeamID := "T0001", ChannelID := "C2147483705", UserID := "U2147483697",
        Command := "/hello", Text := "" }
    Request := some { Type_ := "slash_commands", EnvelopeID := "env-1" } }

/-- A callback event wrapping an app mention, as the socket-mode client delivers it. -/
def mentionCallback : Event :=
  { Type_ := EventTypeEventsAPI
    Data := EventData.EventsAPIEvent
      { Token := "tok", TeamID := "T0001", Type_ := CallbackEvent
        InnerEvent :=
          { Type_ := "app_mention"
            Data := InnerEventData.AppMentionEvent (some
              { Type_ := "app_mention", User := "U061F7AUR", Text := "<@U0LAN0Z89> hi",
                TimeStamp := "1515449522.000016", Channel := "C0LAN2Q65" }) } }
    Request := some { Type_ := "events_api", EnvelopeID := "env-2" } }

/-- An event of type `slash_commands` whose `Data` is not a `slack.SlashCommand`. -/
def malformedCommand : Event :=
  { Type_ := EventTypeSlashCommand
    Data := EventData.Other "string"
    Request := some { Type_ := "slash_commands", EnvelopeID := "env-3" } }

/-- A slash command whose text differs from `/hello` by a trailing blank. -/
def helloBlankCommand : Event :=
  { Type_ := EventTypeSlashCommand
    Data := EventData.SlashCommand
      { TeamID := "T0001", ChannelID := "C2147483705", UserID := "U2147483697",
        Command := "/hello ", Text := "" }
    Request := some { Type_ := "slash_commands", EnvelopeID := "env-4" } }

/-- An interactive event (a button click), as the socket-mode client delivers it. -/
def buttonClick : Event :=
  { Type_ := EventTypeInteractive
    Data := EventData.Other "slack.InteractionCallback"
    Request := some { Type_ := "interactive", EnvelopeID := "env-5" } }

/-- An event of type `interactive` without its request envelope, which the
socket-mode client never delivers. -/
def bareClick : Event :=
  { Type_ := EventTypeInteractive
    Data := EventData.Other "slack.InteractionCallback"
    Request := none }

/-- A callback event whose inner event is a plain message, not a mention. -/
def messageCallback : Event :=
  { Type_ := EventTypeEventsAPI
    Data := EventData.EventsAPIEvent
      { Token := "tok", TeamID := "T0001", Type_ := CallbackEvent
        InnerEvent := { Type_ := "message", Data := InnerEventData.Other "*slackevents.MessageEvent" } }
    Request := some { Type_ := "events_api", EnvelopeID := "env-6" } }

/-! ## Handling one event -/

/-- C1, as amended: for an inbound event of type slash-command whose payload is a
`SlashCommand` with `Command` exactly `/hello`, the handler issues exactly one
`PostMessage`, to the `ChannelID` of the command, with text `Hello <@` + `UserID` +
`>!` (the user id inside the Slack mention markup), whatever the call returns. -/
theorem slash_hello_posts_mention_markup (err : Option String) (event : Event)
    (cmd : SlashCommand) (hin : inbound event = true)
    (htype : event.Type_ = EventTypeSlashCommand)
    (hdata : event.Data = EventData.SlashCommand cmd)
    (hcmd : cmd.Command = "/hello") :
    postMessages (handleEvent err event).1 =
      [Action.PostMessage cmd.ChannelID
        [MsgOption.MsgOptionText ("Hello <@" ++ cmd.UserID ++ ">!") false]] := by
  obtain ⟨type, data, req⟩ := event
  simp only at htype hdata
  subst htype hdata
  cases req with
  | none => simp [inbound, EventTypeSlashCommand, EventTypeEventsAPI, EventTypeInteractive] at hin
  | some r =>
    cases err <;>
      simp [handleEvent, hcmd, postMessages, isPostMessage, logPostError, EventTypeSlashCommand,
        EventTypeConnecting, EventTypeConnectionError, EventTypeConnected, EventTypeEventsAPI,
        EventTypeInteractive]

/-- The text posted for this `/hello` command is `Hello <@U2147483697>!`, which is
not `Hello @` + `UserID` + `!`. -/
theorem slash_hello_text_counterexample :
    inbound helloCommand = true ∧ helloCommand.Type_ = EventTypeSlashCommand ∧
    ∃ cmd, helloCommand.Data = EventData.SlashCommand cmd ∧ cmd.Command = "/hello" ∧
      postMessages (handleEvent none helloCommand).1 =
        [Action.PostMessage "C2147483705"
          [MsgOption.MsgOptionText "Hello <@U2147483697>!" false]] ∧
      postMessages (handleEvent none helloCommand).1 ≠
        [Action.PostMessage cmd.ChannelID
          [MsgOption.MsgOptionText ("Hello @" ++ cmd.UserID ++ "!") false]] :=
  ⟨by decide, rfl, _, rfl, rfl, by decide, by decide⟩

/-- The `/hello` command above, with a failing `PostMessage`: the one post carries
the mention markup. -/
theorem slash_hello_posts_mention_markup_witness :
    inbound helloCommand = true ∧
    postMessages (handleEvent (some "channel_not_found") helloCommand).1 =
      [Action.PostMessage "C2147483705"
        [MsgOption.MsgOptionText ("Hello <@" ++ "U2147483697" ++ ">!") false]] :=
  ⟨by decide,
   slash_hello_posts_mention_markup (some "channel_not_found") helloCommand _
     (by decide) rfl rfl rfl⟩

/-- C2, as amended: for an inbound Events-API event whose payload is an
`EventsAPIEvent` of type `CallbackEvent` wrapping an `AppMentionEvent`, the handler
issues exactly one `PostMessage`, to the `Channel` of the mention, with text
`Hello <@` + `User` + `>!` (the user id inside the Slack mention markup),
whatever the call returns. -/
theorem mention_posts_mention_markup (err : Option String) (event : Event)
    (api : EventsAPIEvent) (ev : AppMentionEvent) (hin : inbound event = true)
    (htype : event.Type_ = EventTypeEventsAPI)
    (hdata : event.Data = EventData.EventsAPIEvent api)
    (hcallback : api.Type_ = CallbackEvent)
    (hinner : api.InnerEvent.Data = InnerEventData.AppMentionEvent (some ev)) :
    postMessages (handleEvent err event).1 =
      [Action.PostMessage ev.Channel
        [MsgOption.MsgOptionText ("Hello <@" ++ ev.User ++ ">!") false]] := by
  obtain ⟨type, data, req⟩ := event
  simp only at htype hdata
  subst htype hdata
  cases req with
  | none => simp [inbound, EventTypeSlashCommand, EventTypeEventsAPI, EventTypeInteractive] at hin
  | some r =>
    cases err <;>
      simp [handleEvent, hcallback, hinner, postMessages, isPostMessage, logPostError,
        EventTypeSlashCommand, EventTypeConnecting, EventTypeConnectionError,
        EventTypeConnected, EventTypeEventsAPI, EventTypeInteractive]

/-- The text posted for this mention is `Hello <@U061F7AUR>!`, which is not
`Hello @` + `User` + `!`. -/
theorem mention_text_counterexample :
    inbound mentionCallback = true ∧ mentionCallback.Type_ = EventTypeEventsAPI ∧
    ∃ api ev, mentionCallback.Data = EventData.EventsAPIEvent api ∧
      api.Type_ = CallbackEvent ∧
      api.InnerEvent.Data = InnerEventData.AppMentionEvent (some ev) ∧
      postMessages (handleEvent none mentionCallback).1 =
        [Action.PostMessage "C0LAN2Q65" [MsgOption.MsgOptionText "Hello <@U061F7AUR>!" false]] ∧
      postMessages (handleEvent none mentionCallback).1 ≠
        [Action.PostMessage ev.Channel
          [MsgOption.MsgOptionText ("Hello @" ++ ev.User ++ "!") false]] :=
  ⟨by decide, rfl, _, _, rfl, rfl, rfl, by decide, by decide⟩

/-- The mention above is answered by one post carrying the mention markup. -/
theorem mention_posts_mention_markup_witness :
    inbound mentionCallback = true ∧
    postMessages (handleEvent none mentionCallback).1 =
      [Action.PostMessage "C0LAN2Q65"
        [MsgOption.MsgOptionText ("Hello <@" ++ "U061F7AUR" ++ ">!") false]] :=
  ⟨by decide,
   mention_posts_mention_markup none mentionCallback _ _ (by decide) rfl rfl rfl rfl⟩

/-- C3: an event that is neither a slash command with `Command` exactly `/hello`
nor a callback event wrapping a mention makes the handler issue no `PostMessage`
at all. -/
theorem other_events_post_nothing (err : Option String) (event : Event)
    (hslash : ¬ (event.Type_ = EventTypeSlashCommand ∧
      ∃ cmd, event.Data = EventData.SlashCommand cmd ∧ cmd.Command = "/hello"))
    (hmention : ¬ (event.Type_ = EventTypeEventsAPI ∧
      ∃ api ev, event.Data = EventData.EventsAPIEvent api ∧ api.Type_ = CallbackEvent ∧
        api.InnerEvent.Data = InnerEventData.AppMentionEvent (some ev))) :
    postMessages (handleEvent err event).1 = [] := by
  obtain ⟨type, data, req⟩ := event
  simp only at hslash hmention
  unfold handleEvent
  simp only
  split_ifs with h1 h2 h3 h4 h5 h6
  · simp [postMessages, isPostMessage]
  · simp [postMessages, isPostMessage]
  · simp [postMessages, isPostMessage]
  · cases data with
    | EventsAPIEvent api =>
      cases req with
      | none => simp [postMessages, isPostMessage]
      | some r =>
        simp only
        split_ifs with hc
        · rcases hd : api.InnerEvent.Data with (_ | ev) | t
          · simp [postMessages, isPostMessage]
          · exact absurd ⟨h4, api, ev, rfl, hc, hd⟩ hmention
          · simp [postMessages, isPostMessage]
        · simp [postMessages, isPostMessage]
    | SlashCommand cmd => simp [postMessages, isPostMessage]
    | Other t => simp [postMessages, isPostMessage]
  · cases req <;> simp [postMessages, isPostMessage]
  · cases data with
    | EventsAPIEvent api => simp [postMessages, isPostMessage]
    | SlashCommand cmd =>
      cases req with
      | none => simp [postMessages, isPostMessage]
      | some r =>
        simp only
        split_ifs with hc
        · exact absurd ⟨h6, cmd, rfl, hc⟩ hslash
        · simp [postMessages, isPostMessage]
    | Other t => simp [postMessages, isPostMessage]
  · simp [postMessages, isPostMessage]

/-- The command `/hello ` (trailing blank) is not answered. -/
theorem other_events_post_nothing_witness :
    postMessages (handleEvent none helloBlankCommand).1 = [] :=
  other_events_post_nothing none helloBlankCommand
    (by
      rintro ⟨-, cmd, hd, hc⟩
      have hcmd := EventData.SlashCommand.inj hd
      subst hcmd
      exact absurd hc (by decide))
    (by
      rintro ⟨h, -⟩
      exact absurd h (by decide))

/-- C4, as amended: for an inbound event of type slash-command whose payload is a
`SlashCommand`, of type Events-API carrying a callback mention, or of type
interactive, the handler acknowledges the request of the event exactly once, and the
acknowledgment is the first of its calls: everything after it is a `PostMessage`. -/
theorem ack_once_before_post (err : Option String) (event : Event)
    (hin : inbound event = true)
    (hshape : (event.Type_ = EventTypeSlashCommand ∧
        ∃ cmd, event.Data = EventData.SlashCommand cmd) ∨
      (event.Type_ = EventTypeEventsAPI ∧
        ∃ api ev, event.Data = EventData.EventsAPIEvent api ∧ api.Type_ = CallbackEvent ∧
          api.InnerEvent.Data = InnerEventData.AppMentionEvent (some ev)) ∨
      event.Type_ = EventTypeInteractive) :
    ∃ req, event.Request = some req ∧
      acks (handleEvent err event).1 = [Action.Ack req] ∧
      calls (handleEvent err event).1 =
        Action.Ack req :: postMessages (handleEvent err event).1 := by
  obtain ⟨type, data, req⟩ := event
  simp only at hshape
  rcases hshape with ⟨htype, cmd, hdata⟩ | ⟨htype, api, ev, hdata, hcallback, hinner⟩ | htype
  · subst htype hdata
    cases req with
    | none =>
      simp [inbound, EventTypeSlashCommand, EventTypeEventsAPI, EventTypeInteractive] at hin
    | some r =>
      refine ⟨r, rfl, ?_⟩
      by_cases hc : cmd.Command = "/hello" <;> cases err <;>
        simp [handleEvent, hc, acks, calls, postMessages, isAck, isLog, isPostMessage,
          logPostError, EventTypeSlashCommand, EventTypeConnecting, EventTypeConnectionError,
          EventTypeConnected, EventTypeEventsAPI, EventTypeInteractive]
  · subst htype hdata
    cases req with
    | none =>
      simp [inbound, EventTypeSlashCommand, EventTypeEventsAPI, EventTypeInteractive] at hin
    | some r =>
      refine ⟨r, rfl, ?_⟩
      cases err <;>
        simp [handleEvent, hcallback, hinner, acks, calls, postMessages, isAck, isLog,
          isPostMessage, logPostError, EventTypeSlashCommand, EventTypeConnecting,
          EventTypeConnectionError, EventTypeConnected, EventTypeEventsAPI,
          EventTypeInteractive]
  · subst htype
    cases req with
    | none =>
      simp [inbound, EventTypeSlashCommand, EventTypeEventsAPI, EventTypeInteractive] at hin
    | some r =>
      refine ⟨r, rfl, ?_⟩
      simp [handleEvent, acks, calls, postMessages, isAck, isLog, isPostMessage,
        EventTypeSlashCommand, EventTypeConnecting, EventTypeConnectionError,
        EventTypeConnected, EventTypeEventsAPI, EventTypeInteractive]

/-- This inbound event has type slash-command and carries a request, but its
payload is not a `SlashCommand`: the handler logs it and acknowledges nothing. -/
theorem slash_type_not_acked_counterexample :
    inbound malformedCommand = true ∧ malformedCommand.Type_ = EventTypeSlashCommand ∧
    malformedCommand.Request = some { Type_ := "slash_commands", EnvelopeID := "env-3" } ∧
    acks (handleEvent none malformedCommand).1 = [] ∧
    (handleEvent none malformedCommand).1 =
      [Action.Printf "Event: %+v\n" (LogArg.event malformedCommand),
       Action.Printf "Ignored %+v\n" (LogArg.event malformedCommand)] :=
  ⟨by decide, rfl, rfl, by decide, by decide⟩

/-- The button click is acknowledged once, and nothing is posted. -/
theorem ack_once_before_post_witness :
    inbound buttonClick = true ∧ buttonClick.Type_ = EventTypeInteractive ∧
    ∃ req, buttonClick.Request = some req ∧
      acks (handleEvent none buttonClick).1 = [Action.Ack req] ∧
      calls (handleEvent none buttonClick).1 =
        Action.Ack req :: postMessages (handleEvent none buttonClick).1 :=
  ⟨by decide, rfl,
   ack_once_before_post none buttonClick (by decide) (Or.inr (Or.inr rfl))⟩

/-- C6: when the type assertion on `event.Data` fails (type Events-API without an
`EventsAPIEvent`, or type slash-command without a `SlashCommand`), the handler
writes its two log lines and nothing else, no acknowledgment and no `PostMessage`,
and the loop goes on with the events that follow. -/
theorem failed_assertion_only_logs (err : Option String) (event : Event)
    (hfail : (event.Type_ = EventTypeEventsAPI ∧
        ∀ v, event.Data ≠ EventData.EventsAPIEvent v) ∨
      (event.Type_ = EventTypeSlashCommand ∧
        ∀ v, event.Data ≠ EventData.SlashCommand v)) :
    handleEvent err event =
      ([Action.Printf "Event: %+v\n" (LogArg.event event),
        Action.Printf "Ignored %+v\n" (LogArg.event event)], Flow.next) ∧
    acks (handleEvent err event).1 = [] ∧
    postMessages (handleEvent err event).1 = [] ∧
    ∀ (postResult : Nat → Option String) (k : Nat) (later : List Event),
      dispatch postResult k (event :: later) =
        ([Action.Printf "Event: %+v\n" (LogArg.event event),
          Action.Printf "Ignored %+v\n" (LogArg.event event)]
            ++ (dispatch postResult k later).1,
         (dispatch postResult k later).2) := by
  have key : ∀ e : Option String, handleEvent e event =
      ([Action.Printf "Event: %+v\n" (LogArg.event event),
        Action.Printf "Ignored %+v\n" (LogArg.event event)], Flow.next) := by
    intro e
    obtain ⟨type, data, req⟩ := event
    simp only at hfail
    rcases hfail with ⟨htype, hdata⟩ | ⟨htype, hdata⟩
    · subst htype
      cases data with
      | EventsAPIEvent v => exact absurd rfl (hdata v)
      | SlashCommand v =>
        simp [handleEvent, EventTypeSlashCommand, EventTypeConnecting,
          EventTypeConnectionError, EventTypeConnected, EventTypeEventsAPI,
          EventTypeInteractive]
      | Other t =>
        simp [handleEvent, EventTypeSlashCommand, EventTypeConnecting,
          EventTypeConnectionError, EventTypeConnected, EventTypeEventsAPI,
          EventTypeInteractive]
    · subst htype
      cases data with
      | SlashCommand v => exact absurd rfl (hdata v)
      | EventsAPIEvent v =>
        simp [handleEvent, EventTypeSlashCommand, EventTypeConnecting,
          EventTypeConnectionError, EventTypeConnected, EventTypeEventsAPI,
          EventTypeInteractive]
      | Other t =>
        simp [handleEvent, EventTypeSlashCommand, EventTypeConnecting,
          EventTypeConnectionError, EventTypeConnected, EventTypeEventsAPI,
          EventTypeInteractive]
  refine ⟨key err, ?_, ?_, ?_⟩
  · rw [key err]; simp [acks, isAck]
  · rw [key err]; simp [postMessages, isPostMessage]
  · intro postResult k later
    simp [dispatch, key (postResult k), postMessages, isPostMessage]

/-- The malformed slash command is only logged, and it is followed
by a `/hello` command that is still handled. -/
theorem failed_assertion_only_logs_witness :
    malformedCommand.Type_ = EventTypeSlashCommand ∧
    (∀ v, malformedCommand.Data ≠ EventData.SlashCommand v) ∧
    (handleEvent none malformedCommand).1 =
      [Action.Printf "Event: %+v\n" (LogArg.event malformedCommand),
       Action.Printf "Ignored %+v\n" (LogArg.event malformedCommand)] ∧
    (dispatch (fun _ => none) 0 [malformedCommand, helloCommand]).1 =
      [Action.Printf "Event: %+v\n" (LogArg.event malformedCommand),
       Action.Printf "Ignored %+v\n" (LogArg.event malformedCommand)]
        ++ (dispatch (fun _ => none) 0 [helloCommand]).1 :=
  have h := failed_assertion_only_logs none malformedCommand
    (Or.inr ⟨rfl, fun _ hv => EventData.noConfusion hv⟩)
  ⟨rfl, fun _ hv => EventData.noConfusion hv, congrArg Prod.fst h.1,
   congrArg Prod.fst (h.2.2.2 (fun _ => none) 0 [helloCommand])⟩

/-- C10: an inbound event of type Events-API whose payload is an `EventsAPIEvent`
is acknowledged exactly once whatever the type of the `EventsAPIEvent` and its
inner event; when the type is not `CallbackEvent`, or the inner event is not a
mention, the acknowledgment is the only call and no `PostMessage` is issued. -/
theorem events_api_always_acked (err : Option String) (event : Event)
    (api : EventsAPIEvent) (hin : inbound event = true)
    (htype : event.Type_ = EventTypeEventsAPI)
    (hdata : event.Data = EventData.EventsAPIEvent api) :
    ∃ req, event.Request = some req ∧
      acks (handleEvent err event).1 = [Action.Ack req] ∧
      ((api.Type_ ≠ CallbackEvent ∨
          ∀ ev, api.InnerEvent.Data ≠ InnerEventData.AppMentionEvent (some ev)) →
        calls (handleEvent err event).1 = [Action.Ack req] ∧
        postMessages (handleEvent err event).1 = []) := by
  obtain ⟨type, data, req⟩ := event
  simp only at htype hdata
  subst htype hdata
  cases req with
  | none => simp [inbound, EventTypeSlashCommand, EventTypeEventsAPI, EventTypeInteractive] at hin
  | some r =>
    refine ⟨r, rfl, ?_⟩
    by_cases hc : api.Type_ = CallbackEvent
    · rcases hd : api.InnerEvent.Data with (_ | ev) | t
      · simp [inbound, hd] at hin
      · cases err <;>
          simp [handleEvent, hc, hd, acks, calls, postMessages, isAck, isLog, isPostMessage,
            logPostError, EventTypeConnecting, EventTypeConnectionError, EventTypeConnected,
            EventTypeEventsAPI]
      · simp [handleEvent, hc, hd, acks, calls, postMessages, isAck, isLog, isPostMessage,
          EventTypeConnecting, EventTypeConnectionError, EventTypeConnected,
          EventTypeEventsAPI]
    · simp [handleEvent, hc, acks, calls, postMessages, isAck, isLog, isPostMessage,
        EventTypeConnecting, EventTypeConnectionError, EventTypeConnected,
        EventTypeEventsAPI]

/-- A callback whose inner event is a plain message is acknowledged and not
answered. -/
theorem events_api_always_acked_witness :
    inbound messageCallback = true ∧ messageCallback.Type_ = EventTypeEventsAPI ∧
    ∃ req, messageCallback.Request = some req ∧
      acks (handleEvent none messageCallback).1 = [Action.Ack req] ∧
      calls (handleEvent none messageCallback).1 = [Action.Ack req] ∧
      postMessages (handleEvent none messageCallback).1 = [] :=
  have ⟨req, hreq, hack, hrest⟩ :=
    events_api_always_acked none messageCallback _ (by decide) rfl rfl
  ⟨by decide, rfl, req, hreq, hack,
   hrest (Or.inr (fun _ hv => InnerEventData.noConfusion hv))⟩

/-- C8: if `SLACK_APP_TOKEN` or `SLACK_BOT_TOKEN` is unset or empty, `main` logs the
fatal line and does nothing else: no API client and no socket-mode client is
constructed, the connection is not run, and no event is handled. -/
theorem missing_token_is_fatal (env : Environ) (postResult : Nat → Option String)
    (events : List Event) (runResult : Option String)
    (hmissing : (env "SLACK_APP_TOKEN" = none ∨ env "SLACK_APP_TOKEN" = some "") ∨
      (env "SLACK_BOT_TOKEN" = none ∨ env "SLACK_BOT_TOKEN" = some "")) :
    main env postResult events runResult =
      [Step.Fatal "SLACK_APP_TOKEN and SLACK_BOT_TOKEN must be set."] ∧
    ∀ s ∈ main env postResult events runResult,
      (∀ botToken appToken, s ≠ Step.slackNew botToken appToken) ∧
      s ≠ Step.socketmodeNew ∧ s ≠ Step.RunContext ∧ ∀ a, s ≠ Step.handled a := by
  have hmain : main env postResult events runResult =
      [Step.Fatal "SLACK_APP_TOKEN and SLACK_BOT_TOKEN must be set."] := by
    unfold main
    simp only
    rw [if_pos]
    rcases hmissing with (h | h) | (h | h)
    · exact Or.inl (by simp [Getenv, h])
    · exact Or.inl (by simp [Getenv, h])
    · exact Or.inr (by simp [Getenv, h])
    · exact Or.inr (by simp [Getenv, h])
  refine ⟨hmain, ?_⟩
  intro s hs
  rw [hmain] at hs
  simp at hs
  subst hs
  simp

/-- Only the app token is set, and a `/hello` command is waiting at the gateway:
the fatal line is all that `main` does. -/
theorem missing_token_is_fatal_witness :
    main (fun key => if key = "SLACK_APP_TOKEN" then some "xapp-1" else none)
        (fun _ => none) [helloCommand] none =
      [Step.Fatal "SLACK_APP_TOKEN and SLACK_BOT_TOKEN must be set."] :=
  (missing_token_is_fatal
    (fun key => if key = "SLACK_APP_TOKEN" then some "xapp-1" else none)
    (fun _ => none) [helloCommand] none (Or.inr (Or.inl (by decide)))).1

/-! ## The loop -/

/-- The cases of `switch event.Type`. -/
theorem eventType_cases (t : EventType) :
    t = EventTypeConnecting ∨ t = EventTypeConnectionError ∨ t = EventTypeConnected ∨
    t = EventTypeEventsAPI ∨ t = EventTypeInteractive ∨ t = EventTypeSlashCommand ∨
    (t ≠ EventTypeConnecting ∧ t ≠ EventTypeConnectionError ∧ t ≠ EventTypeConnected ∧
      t ≠ EventTypeEventsAPI ∧ t ≠ EventTypeInteractive ∧ t ≠ EventTypeSlashCommand) := by
  by_cases h1 : t = EventTypeConnecting
  · exact Or.inl h1
  by_cases h2 : t = EventTypeConnectionError
  · exact Or.inr (Or.inl h2)
  by_cases h3 : t = EventTypeConnected
  · exact Or.inr (Or.inr (Or.inl h3))
  by_cases h4 : t = EventTypeEventsAPI
  · exact Or.inr (Or.inr (Or.inr (Or.inl h4)))
  by_cases h5 : t = EventTypeInteractive
  · exact Or.inr (Or.inr (Or.inr (Or.inr (Or.inl h5))))
  by_cases h6 : t = EventTypeSlashCommand
  · exact Or.inr (Or.inr (Or.inr (Or.inr (Or.inr (Or.inl h6)))))
  · exact Or.inr (Or.inr (Or.inr (Or.inr (Or.inr (Or.inr ⟨h1, h2, h3, h4, h5, h6⟩)))))

/-- The result of `client.PostMessage` changes neither how the handler ends nor
its calls; a failure only appends the line that reports it. -/
theorem handleEvent_err (err : Option String) (event : Event) :
    (handleEvent err event).2 = (handleEvent none event).2 ∧
    ((handleEvent err event).1 = (handleEvent none event).1 ∨
      ∃ e, (handleEvent err event).1 = (handleEvent none event).1 ++
        [Action.Printf "Failed to post message: %v" (LogArg.err e)]) := by
  obtain ⟨type, data, req⟩ := event
  rcases eventType_cases type with h | h | h | h | h | h | ⟨h1, h2, h3, h4, h5, h6⟩
  · subst h
    simp [handleEvent, List.append_assoc]
  · subst h
    simp [handleEvent, List.append_assoc]
  · subst h
    simp [handleEvent, List.append_assoc]
  · subst h
    rcases data with api | cmd | t
    · obtain ⟨token, team, apiType, innerType, innerData⟩ := api
      by_cases hc : apiType = CallbackEvent <;> rcases innerData with (_ | ev) | t <;>
        rcases req with _ | r <;> cases err <;>
        simp [hc, handleEvent, logPostError, List.append_assoc]
    · simp [handleEvent, List.append_assoc]
    · simp [handleEvent, List.append_assoc]
  · subst h
    rcases req with _ | r <;> simp [handleEvent, List.append_assoc]
  · subst h
    rcases data with api | cmd | t
    · simp [handleEvent, List.append_assoc]
    · by_cases hc : cmd.Command = "/hello" <;> rcases req with _ | r <;> cases err <;>
        simp [hc, handleEvent, logPostError, List.append_assoc]
    · simp [handleEvent, List.append_assoc]
  · simp only [handleEvent, if_neg h1, if_neg h2, if_neg h3, if_neg h4, if_neg h5, if_neg h6]
    simp [List.append_assoc]

/-- When every `PostMessage` succeeds the handler never logs a failed post. -/
theorem handleEvent_none_no_error_log (event : Event) :
    ∀ a ∈ (handleEvent none event).1, isPostErrorLog a = false := by
  obtain ⟨type, data, req⟩ := event
  rcases eventType_cases type with h | h | h | h | h | h | ⟨h1, h2, h3, h4, h5, h6⟩
  · subst h
    simp [handleEvent, isPostErrorLog]
  · subst h
    simp [handleEvent, isPostErrorLog]
  · subst h
    simp [handleEvent, isPostErrorLog]
  · subst h
    rcases data with api | cmd | t
    · obtain ⟨token, team, apiType, innerType, innerData⟩ := api
      by_cases hc : apiType = CallbackEvent <;> rcases innerData with (_ | ev) | t <;>
        rcases req with _ | r <;>
        simp [hc, handleEvent, logPostError, isPostErrorLog]
    · simp [handleEvent, isPostErrorLog]
    · simp [handleEvent, isPostErrorLog]
  · subst h
    rcases req with _ | r <;> simp [handleEvent, isPostErrorLog]
  · subst h
    rcases data with api | cmd | t
    · simp [handleEvent, isPostErrorLog]
    · by_cases hc : cmd.Command = "/hello" <;> rcases req with _ | r <;>
        simp [hc, handleEvent, logPostError, isPostErrorLog]
    · simp [handleEvent, isPostErrorLog]
  · simp only [handleEvent, if_neg h1, if_neg h2, if_neg h3, if_neg h4, if_neg h5, if_neg h6]
    simp [isPostErrorLog]

/-- An inbound event never makes the handler dereference a nil pointer. -/
theorem handleEvent_inbound_next (err : Option String) (event : Event) :
    inbound event = true → (handleEvent err event).2 = Flow.next := by
  obtain ⟨type, data, req⟩ := event
  rcases eventType_cases type with h | h | h | h | h | h | ⟨h1, h2, h3, h4, h5, h6⟩
  · subst h
    simp [handleEvent, inbound]
  · subst h
    simp [handleEvent, inbound]
  · subst h
    simp [handleEvent, inbound]
  · subst h
    rcases data with api | cmd | t
    · obtain ⟨token, team, apiType, innerType, innerData⟩ := api
      by_cases hc : apiType = CallbackEvent <;> rcases innerData with (_ | ev) | t <;>
        rcases req with _ | r <;> cases err <;>
        simp [hc, handleEvent, logPostError, inbound]
    · simp [handleEvent, inbound]
    · simp [handleEvent, inbound]
  · subst h
    rcases req with _ | r <;> simp [handleEvent, inbound]
  · subst h
    rcases data with api | cmd | t
    · simp [handleEvent, inbound]
    · by_cases hc : cmd.Command = "/hello" <;> rcases req with _ | r <;> cases err <;>
        simp [hc, handleEvent, logPostError, inbound]
    · simp [handleEvent, inbound]
  · simp only [handleEvent, if_neg h1, if_neg h2, if_neg h3, if_neg h4, if_neg h5, if_neg h6]
    simp [inbound]

/-- The handler opens with the `Event:` line and writes no other line in that
format. -/
theorem handleEvent_received (err : Option String) (event : Event) :
    received (handleEvent err event).1 = [event] := by
  obtain ⟨type, data, req⟩ := event
  rcases eventType_cases type with h | h | h | h | h | h | ⟨h1, h2, h3, h4, h5, h6⟩
  · subst h
    simp [handleEvent, received]
  · subst h
    simp [handleEvent, received]
  · subst h
    simp [handleEvent, received]
  · subst h
    rcases data with api | cmd | t
    · obtain ⟨token, team, apiType, innerType, innerData⟩ := api
      by_cases hc : apiType = CallbackEvent <;> rcases innerData with (_ | ev) | t <;>
        rcases req with _ | r <;> cases err <;>
        simp [hc, handleEvent, logPostError, received]
    · simp [handleEvent, received]
    · simp [handleEvent, received]
  · subst h
    rcases req with _ | r <;> simp [handleEvent, received]
  · subst h
    rcases data with api | cmd | t
    · simp [handleEvent, received]
    · by_cases hc : cmd.Command = "/hello" <;> rcases req with _ | r <;> cases err <;>
        simp [hc, handleEvent, logPostError, received]
    · simp [handleEvent, received]
  · simp only [handleEvent, if_neg h1, if_neg h2, if_neg h3, if_neg h4, if_neg h5, if_neg h6]
    simp [received]

/-- Dropping the failed-post lines from what the handler does gives what it does
when the post succeeds. -/
theorem handleEvent_strip (err : Option String) (event : Event) :
    (handleEvent err event).1.filter (fun a => !isPostErrorLog a) =
      (handleEvent none event).1 := by
  have hnone : (handleEvent none event).1.filter (fun a => !isPostErrorLog a) =
      (handleEvent none event).1 := by
    rw [List.filter_eq_self]
    intro a ha
    simp [handleEvent_none_no_error_log event a ha]
  rcases (handleEvent_err err event).2 with h | ⟨e, h⟩
  · rw [h, hnone]
  · rw [h, List.filter_append, hnone]
    simp [isPostErrorLog]

/-- Without the request envelope the dereference in `client.Ack(*event.Request)`
panics: the event is logged, nothing is acknowledged, and the loop ends there
(the `/hello` command that follows is not handled). -/
theorem nil_request_panics :
    inbound bareClick = false ∧
    handleEvent none bareClick =
      ([Action.Printf "Event: %+v\n" (LogArg.event bareClick)], Flow.panicked) ∧
    dispatch (fun _ => none) 0 [bareClick, helloCommand] =
      ([Action.Printf "Event: %+v\n" (LogArg.event bareClick)], Flow.panicked) :=
  ⟨by decide, by decide, by decide⟩

/-- One turn of the loop when the handler reaches the next receive. -/
theorem dispatch_cons_next (postResult : Nat → Option String) (k : Nat) (event : Event)
    (events : List Event) (h : (handleEvent (postResult k) event).2 = Flow.next) :
    dispatch postResult k (event :: events) =
      ((handleEvent (postResult k) event).1 ++
        (dispatch postResult
          (k + (postMessages (handleEvent (postResult k) event).1).length) events).1,
       (dispatch postResult
          (k + (postMessages (handleEvent (postResult k) event).1).length) events).2) := by
  rcases hh : handleEvent (postResult k) event with ⟨a, f⟩
  rw [hh] at h
  simp only at h
  subst h
  simp [dispatch, hh]

/-- One turn of the loop when the handler panics. -/
theorem dispatch_cons_panicked (postResult : Nat → Option String) (k : Nat) (event : Event)
    (events : List Event) (h : (handleEvent (postResult k) event).2 = Flow.panicked) :
    dispatch postResult k (event :: events) =
      ((handleEvent (postResult k) event).1, Flow.panicked) := by
  rcases hh : handleEvent (postResult k) event with ⟨a, f⟩
  rw [hh] at h
  simp only at h
  subst h
  simp [dispatch, hh]

/-- Dropping the failed-post lines from a run gives the run in which every post
succeeds, and both runs end the same way. -/
theorem dispatch_strip (postResult : Nat → Option String) (events : List Event) :
    ∀ k k0 : Nat,
      (dispatch postResult k events).2 = (dispatch (fun _ => none) k0 events).2 ∧
      (dispatch postResult k events).1.filter (fun a => !isPostErrorLog a) =
        (dispatch (fun _ => none) k0 events).1 := by
  induction events with
  | nil => intro k k0; simp [dispatch]
  | cons event events ih =>
    intro k k0
    have hflow := (handleEvent_err (postResult k) event).1
    have hstrip := handleEvent_strip (postResult k) event
    cases hf : (handleEvent none event).2 with
    | next =>
      rw [dispatch_cons_next postResult k event events (hflow.trans hf),
        dispatch_cons_next (fun _ => none) k0 event events hf]
      have h := ih (k + (postMessages (handleEvent (postResult k) event).1).length)
        (k0 + (postMessages (handleEvent none event).1).length)
      exact ⟨h.1, by rw [List.filter_append, hstrip, h.2]⟩
    | panicked =>
      rw [dispatch_cons_panicked postResult k event events (hflow.trans hf),
        dispatch_cons_panicked (fun _ => none) k0 event events hf]
      exact ⟨rfl, hstrip⟩

/-- The failed-post lines are log lines: dropping them keeps the calls. -/
theorem calls_strip (actions : List Action) :
    calls (actions.filter (fun a => !isPostErrorLog a)) = calls actions := by
  unfold calls
  rw [List.filter_filter]
  congr 1
  funext a
  cases a with
  | Println line => simp [isLog]
  | Printf format arg => simp [isLog]
  | Ack req => simp [isLog, isPostErrorLog]
  | PostMessage channelID options => simp [isLog, isPostErrorLog]

/-- The acknowledgments and reply attempts of a run, and the way it ends, do not
depend on the results of the posts. -/
theorem dispatch_calls_indep (r1 r2 : Nat → Option String) (k1 k2 : Nat)
    (events : List Event) :
    (dispatch r1 k1 events).2 = (dispatch r2 k2 events).2 ∧
    calls (dispatch r1 k1 events).1 = calls (dispatch r2 k2 events).1 := by
  have h1 := dispatch_strip r1 events k1 0
  have h2 := dispatch_strip r2 events k2 0
  refine ⟨h1.1.trans h2.1.symm, ?_⟩
  rw [← calls_strip (dispatch r1 k1 events).1, ← calls_strip (dispatch r2 k2 events).1,
    h1.2, h2.2]

/-- The function `received` reads a run piece by piece. -/
theorem received_append (xs ys : List Action) :
    received (xs ++ ys) = received xs ++ received ys := by
  induction xs with
  | nil => simp [received]
  | cons a xs ih =>
    cases a with
    | Println line => simp [received, ih]
    | Printf format arg =>
      cases arg with
      | event e =>
        by_cases hfmt : format = "Event: %+v\n"
        · simp [received, hfmt, ih]
        · simp [received, hfmt, ih]
      | err e => simp [received, ih]
      | str t => simp [received, ih]
    | Ack req => simp [received, ih]
    | PostMessage channelID options => simp [received, ih]

/-- On inbound events the loop never stops: it handles every event, and its calls
are those of the single events, one event after the other. -/
theorem dispatch_inbound (postResult : Nat → Option String) (events : List Event)
    (hin : ∀ e ∈ events, inbound e = true) :
    ∀ k : Nat,
      (dispatch postResult k events).2 = Flow.next ∧
      received (dispatch postResult k events).1 = events ∧
      calls (dispatch postResult k events).1 =
        (events.map (fun e => calls (handleEvent none e).1)).flatten := by
  induction events with
  | nil => intro k; simp [dispatch, received, calls]
  | cons event events ih =>
    intro k
    have hnext := handleEvent_inbound_next (postResult k) event (hin event (by simp))
    have h := ih (fun e he => hin e (by simp [he]))
      (k + (postMessages (handleEvent (postResult k) event).1).length)
    rw [dispatch_cons_next postResult k event events hnext]
    refine ⟨h.1, ?_, ?_⟩
    · rw [received_append, handleEvent_received, h.2.1]
      rfl
    · have hc : calls (handleEvent (postResult k) event).1 =
          calls (handleEvent none event).1 := by
        rw [← calls_strip, handleEvent_strip]
      simp only [List.map_cons, List.flatten_cons]
      rw [← h.2.2, ← hc]
      simp [calls]

/-- The loop on `xs ++ ys` when the run on `xs` does not panic. -/
theorem dispatch_append (postResult : Nat → Option String) (xs ys : List Event) :
    ∀ k : Nat, (dispatch postResult k xs).2 = Flow.next →
      dispatch postResult k (xs ++ ys) =
        ((dispatch postResult k xs).1 ++
          (dispatch postResult (k + (postMessages (dispatch postResult k xs).1).length) ys).1,
         (dispatch postResult (k + (postMessages (dispatch postResult k xs).1).length) ys).2) := by
  induction xs with
  | nil => intro k _; simp [dispatch, postMessages]
  | cons event xs ih =>
    intro k hk
    cases hf : (handleEvent (postResult k) event).2 with
    | panicked =>
      rw [dispatch_cons_panicked postResult k event xs hf] at hk
      cases hk
    | next =>
      rw [dispatch_cons_next postResult k event xs hf] at hk ⊢
      rw [List.cons_append, dispatch_cons_next postResult k event (xs ++ ys) hf]
      simp only at hk
      rw [ih _ hk]
      simp [postMessages, List.filter_append, Nat.add_assoc]

/-- The handler posts at most once. Without a post its actions do not depend on
`err`; with a post it ends with the check of `err` and reaches the next receive. -/
theorem handleEvent_post (err : Option String) (event : Event) :
    (postMessages (handleEvent none event).1 = [] ∧
      (handleEvent err event).1 = (handleEvent none event).1) ∨
    (∃ channelID options,
      postMessages (handleEvent none event).1 = [Action.PostMessage channelID options] ∧
      (handleEvent err event).1 = (handleEvent none event).1 ++ logPostError err ∧
      (handleEvent err event).2 = Flow.next) := by
  obtain ⟨type, data, req⟩ := event
  rcases eventType_cases type with h | h | h | h | h | h | ⟨h1, h2, h3, h4, h5, h6⟩
  · subst h
    simp [handleEvent, postMessages, isPostMessage]
  · subst h
    simp [handleEvent, postMessages, isPostMessage]
  · subst h
    simp [handleEvent, postMessages, isPostMessage]
  · subst h
    rcases data with api | cmd | t
    · obtain ⟨token, team, apiType, innerType, innerData⟩ := api
      by_cases hc : apiType = CallbackEvent <;> rcases innerData with (_ | ev) | t <;>
        rcases req with _ | r <;> cases err <;>
        simp [hc, handleEvent, logPostError, postMessages, isPostMessage]
    · simp [handleEvent, postMessages, isPostMessage]
    · simp [handleEvent, postMessages, isPostMessage]
  · subst h
    rcases req with _ | r <;> simp [handleEvent, postMessages, isPostMessage]
  · subst h
    rcases data with api | cmd | t
    · simp [handleEvent, postMessages, isPostMessage]
    · by_cases hc : cmd.Command = "/hello" <;> rcases req with _ | r <;> cases err <;>
        simp [hc, handleEvent, logPostError, postMessages, isPostMessage]
    · simp [handleEvent, postMessages, isPostMessage]
  · simp only [handleEvent, if_neg h1, if_neg h2, if_neg h3, if_neg h4, if_neg h5, if_neg h6]
    simp [postMessages, isPostMessage]

/-- The check of `err` writes the failure line exactly when `err` is not nil. -/
theorem logPostError_lines (err : Option String) :
    (logPostError err).filter isPostErrorLog = logPostError err ∧
    postMessages (logPostError err) = [] ∧
    logPostError err =
      (err.toList).map (fun m => Action.Printf "Failed to post message: %v" (LogArg.err m)) := by
  cases err <;> simp [logPostError, isPostErrorLog, postMessages, isPostMessage]

/-- The all-success handler writes no failure line. -/
theorem handleEvent_none_error_logs (event : Event) :
    (handleEvent none event).1.filter isPostErrorLog = [] := by
  rw [List.filter_eq_nil_iff]
  intro a ha
  simp [handleEvent_none_no_error_log event a ha]

/-- The failure lines of a run are exactly the errors returned by its posts, in the
order of the posts. -/
theorem dispatch_error_logs (postResult : Nat → Option String) (events : List Event) :
    ∀ k : Nat,
      (dispatch postResult k events).1.filter isPostErrorLog =
        ((List.range (postMessages (dispatch postResult k events).1).length).filterMap
          (fun i => postResult (k + i))).map
          (fun m => Action.Printf "Failed to post message: %v" (LogArg.err m)) := by
  induction events with
  | nil => intro k; simp [dispatch, postMessages]
  | cons event events ih =>
    intro k
    rcases handleEvent_post (postResult k) event with ⟨hp, ha⟩ | ⟨c, o, hp, ha, hf⟩
    · have hposts : postMessages (handleEvent (postResult k) event).1 = [] := by
        rw [ha, hp]
      have hlogs : (handleEvent (postResult k) event).1.filter isPostErrorLog = [] := by
        rw [ha, handleEvent_none_error_logs]
      cases hf : (handleEvent (postResult k) event).2 with
      | panicked =>
        rw [dispatch_cons_panicked postResult k event events hf]
        simp [hposts, hlogs]
      | next =>
        rw [dispatch_cons_next postResult k event events hf]
        have h := ih (k + 0)
        simp only [hposts, List.length_nil] at h ⊢
        simp only [List.filter_append, hlogs, List.nil_append, postMessages] at h ⊢
        simp only [postMessages] at hposts
        rw [hposts, List.nil_append, h]
        simp
    · have hl := logPostError_lines (postResult k)
      have hposts : postMessages (handleEvent (postResult k) event).1 =
          [Action.PostMessage c o] := by
        rw [ha]
        simp only [postMessages, List.filter_append] at hp hl ⊢
        rw [hp, hl.2.1, List.append_nil]
      have hlogs : (handleEvent (postResult k) event).1.filter isPostErrorLog =
          logPostError (postResult k) := by
        rw [ha, List.filter_append, handleEvent_none_error_logs, hl.1, List.nil_append]
      rw [dispatch_cons_next postResult k event events hf]
      have h := ih (k + 1)
      simp only [hposts, List.length_singleton] at h ⊢
      simp only [postMessages] at hposts h ⊢
      simp only [List.filter_append, hlogs, hposts, List.length_append,
        List.length_singleton]
      rw [h, Nat.add_comm 1, List.range_succ_eq_map, List.filterMap_cons, List.filterMap_map]
      have hfun : ((fun i => postResult (k + i)) ∘ Nat.succ) =
          (fun i => postResult (k + 1 + i)) := by
        funext i
        simp [Nat.add_assoc, Nat.add_comm 1 i]
      rw [hfun]
      cases hr : postResult k <;> simp [logPostError, hr]

/-- C5: on every sequence of inbound events and for every assignment of success or
failure to the `PostMessage` calls, the loop is not stopped: every event of the
sequence is handled, in order; the acknowledgments and reply attempts are, event by
event, those issued when every post succeeds; the whole run differs from the
all-success run only by the lines that log the failed posts; and every failed post
is logged: the failure lines of the run are the errors returned by its posts, in
order, and a failed post makes the handler end with the line that reports it. -/
theorem post_failure_keeps_loop_going (postResult : Nat → Option String) (k : Nat)
    (events : List Event) (hin : ∀ e ∈ events, inbound e = true) :
    (dispatch postResult k events).2 = Flow.next ∧
    received (dispatch postResult k events).1 = events ∧
    calls (dispatch postResult k events).1 =
      (events.map (fun e => calls (handleEvent none e).1)).flatten ∧
    calls (dispatch postResult k events).1 = calls (dispatch (fun _ => none) k events).1 ∧
    (dispatch postResult k events).1.filter (fun a => !isPostErrorLog a) =
      (dispatch (fun _ => none) k events).1 ∧
    (dispatch postResult k events).1.filter isPostErrorLog =
      ((List.range (postMessages (dispatch postResult k events).1).length).filterMap
        (fun i => postResult (k + i))).map
        (fun m => Action.Printf "Failed to post message: %v" (LogArg.err m)) ∧
    ∀ (e : Event) (m : String), postMessages (handleEvent none e).1 ≠ [] →
      (handleEvent (some m) e).1 =
        (handleEvent none e).1 ++
          [Action.Printf "Failed to post message: %v" (LogArg.err m)] := by
  refine ⟨(dispatch_inbound postResult events hin k).1,
    (dispatch_inbound postResult events hin k).2.1,
    (dispatch_inbound postResult events hin k).2.2,
    (dispatch_calls_indep postResult (fun _ => none) k k events).2,
    (dispatch_strip postResult events k k).2,
    dispatch_error_logs postResult events k, ?_⟩
  intro e m hne
  rcases handleEvent_post (some m) e with ⟨hp, -⟩ | ⟨c, o, -, ha, -⟩
  · exact absurd hp hne
  · rw [ha]
    rfl

/-- The first post fails: the failure is logged right after the post, and the
mention that follows is acknowledged and answered all the same. -/
theorem post_failure_keeps_loop_going_witness :
    (∀ e ∈ [helloCommand, mentionCallback], inbound e = true) ∧
    received (dispatch (fun i => if i = 0 then some "channel_not_found" else none) 0
      [helloCommand, mentionCallback]).1 = [helloCommand, mentionCallback] ∧
    calls (dispatch (fun i => if i = 0 then some "channel_not_found" else none) 0
      [helloCommand, mentionCallback]).1 =
      [Action.Ack { Type_ := "slash_commands", EnvelopeID := "env-1" },
       Action.PostMessage "C2147483705"
         [MsgOption.MsgOptionText "Hello <@U2147483697>!" false],
       Action.Ack { Type_ := "events_api", EnvelopeID := "env-2" },
       Action.PostMessage "C0LAN2Q65" [MsgOption.MsgOptionText "Hello <@U061F7AUR>!" false]] ∧
    (dispatch (fun i => if i = 0 then some "channel_not_found" else none) 0
      [helloCommand, mentionCallback]).1.filter isPostErrorLog =
      [Action.Printf "Failed to post message: %v" (LogArg.err "channel_not_found")] ∧
    (handleEvent (some "channel_not_found") helloCommand).1 =
      [Action.Printf "Event: %+v\n" (LogArg.event helloCommand),
       Action.Ack { Type_ := "slash_commands", EnvelopeID := "env-1" },
       Action.PostMessage "C2147483705"
         [MsgOption.MsgOptionText "Hello <@U2147483697>!" false],
       Action.Printf "Failed to post message: %v" (LogArg.err "channel_not_found")] :=
  have hin : ∀ e ∈ [helloCommand, mentionCallback], inbound e = true := by decide
  have h := post_failure_keeps_loop_going
    (fun i => if i = 0 then some "channel_not_found" else none) 0
    [helloCommand, mentionCallback] hin
  ⟨hin, h.2.1, h.2.2.1.trans (by decide), h.2.2.2.2.2.1.trans (by decide),
   (h.2.2.2.2.2.2 helloCommand "channel_not_found" (by decide)).trans (by decide)⟩

/-- C9: the loop keeps no state between events. On inbound events, the
acknowledgments and reply attempts of a run on `xs ++ ys` are those of a run on
`xs` followed by those of a run on `ys`, whatever the results of the posts in the
three runs; in particular an event that triggers a reply, received twice, is
answered twice with the same channel and the same message options. -/
theorem dispatch_keeps_no_state (r r1 r2 : Nat → Option String) (k k1 k2 : Nat)
    (xs ys : List Event) (hxs : ∀ e ∈ xs, inbound e = true) :
    calls (dispatch r k (xs ++ ys)).1 =
      calls (dispatch r1 k1 xs).1 ++ calls (dispatch r2 k2 ys).1 ∧
    ∀ (e : Event) (channelID : String) (options : List MsgOption),
      inbound e = true →
      postMessages (handleEvent none e).1 = [Action.PostMessage channelID options] →
      postMessages (dispatch r k [e, e]).1 =
        [Action.PostMessage channelID options, Action.PostMessage channelID options] := by
  constructor
  · have hnext := (dispatch_inbound r xs hxs k).1
    rw [dispatch_append r xs ys k hnext]
    simp only
    have hcalls : ∀ a b : List Action, calls (a ++ b) = calls a ++ calls b := by
      intro a b
      simp [calls]
    rw [hcalls, (dispatch_calls_indep r r1 k k1 xs).2,
      (dispatch_calls_indep r r2 _ k2 ys).2]
  · intro e channelID options he hpost
    have hposts : ∀ err, postMessages (handleEvent err e).1 =
        [Action.PostMessage channelID options] := by
      intro err
      rcases (handleEvent_err err e).2 with h | ⟨m, h⟩
      · rw [h, hpost]
      · rw [h]
        simp only [postMessages, List.filter_append] at hpost ⊢
        rw [hpost]
        simp [isPostMessage]
    rw [dispatch_cons_next r k e [e] (handleEvent_inbound_next _ e he),
      dispatch_cons_next r _ e [] (handleEvent_inbound_next _ e he)]
    simp only [dispatch, List.append_nil, postMessages, List.filter_append]
    have h1 := hposts (r k)
    have h2 := hposts (r (k + (postMessages (handleEvent (r k) e).1).length))
    simp only [postMessages] at h1 h2
    rw [h2, h1]
    rfl

/-- A `/hello` command followed by a mention, and the `/hello` command received
twice. -/
theorem dispatch_keeps_no_state_witness :
    (∀ e ∈ [helloCommand], inbound e = true) ∧
    calls (dispatch (fun _ => none) 0 ([helloCommand] ++ [mentionCallback])).1 =
      calls (dispatch (fun _ => none) 0 [helloCommand]).1 ++
        calls (dispatch (fun _ => some "ratelimited") 0 [mentionCallback]).1 ∧
    postMessages (dispatch (fun _ => none) 0 [helloCommand, helloCommand]).1 =
      [Action.PostMessage "C2147483705"
         [MsgOption.MsgOptionText "Hello <@U2147483697>!" false],
       Action.PostMessage "C2147483705"
         [MsgOption.MsgOptionText "Hello <@U2147483697>!" false]] :=
  have hin : ∀ e ∈ [helloCommand], inbound e = true := by decide
  have h := dispatch_keeps_no_state (fun _ => none) (fun _ => none)
    (fun _ => some "ratelimited") 0 0 0 [helloCommand] [mentionCallback] hin
  ⟨hin, h.1, h.2 helloCommand _ _ (by decide) (by decide)⟩

end SlackBot
